import Mathlib

set_option maxHeartbeats 1000000

/-!
Shallow embedding of the homework notification bot (`homework.py` together
with `exceptions.py`): the data model, the leaf functions `check_tokens`,
`send_message`, `get_api_answer`, `check_response` and `parse_status`, and
the body of the polling loop of `main`, together with proofs of the
behavioural contracts stated for them.

Python values appearing in API responses are modelled by `PyVal`; raised
exceptions by the sum `BotError` (the three classes of `exceptions.py`
plus the built-in `TypeError` and `KeyError` and the JSON decode error);
fallible functions return `Except BotError α`.  The helper
`log_and_raise(message, exception)` of the source logs and then raises
`exception(message)`; since logging is pure I/O it is not modelled, and
each call site is embedded as `Except.error` of the corresponding
exception carrying the same message.  One iteration of the `while True:`
body of `main` is `runCycle`; everything the iteration consumes from the
outside world (the transport outcome, the current clock, the outcomes of
the possible Telegram deliveries) is supplied as the oracle `CycleEnv`,
and the externally visible actions of the iteration are returned as a
trace of `Event`s.
-/

/-- Python values that can appear in a decoded API response: `None`,
integers, strings, lists and string-keyed dictionaries. -/
inductive PyVal where
  | pyNone : PyVal
  | pyInt : Int → PyVal
  | pyStr : String → PyVal
  | pyList : List PyVal → PyVal
  | pyDict : List (String × PyVal) → PyVal

/-- The exceptions the program can raise: the three classes of
`exceptions.py`, the built-in `TypeError` and `KeyError` raised by
`check_response`, and the JSON decode error escaping `response.json()`. -/
inductive BotError where
  | missingTokensError : String → BotError
  | apiRequestError : String → BotError
  | homeworkStatusError : String → BotError
  | typeError : String → BotError
  | keyError : String → BotError
  | jsonError : String → BotError
  deriving DecidableEq

/-- Python rendering of `type(v)`, as used in the two `TypeError` messages
of `check_response`. -/
def pyTypeName : PyVal → String
  | .pyNone => "<class \x27NoneType\x27>"
  | .pyInt _ => "<class \x27int\x27>"
  | .pyStr _ => "<class \x27str\x27>"
  | .pyList _ => "<class \x27list\x27>"
  | .pyDict _ => "<class \x27dict\x27>"

mutual
/-- Python `repr(v)` (used for elements when a container is rendered). -/
def pyRepr : PyVal → String
  | .pyNone => "None"
  | .pyInt n => toString n
  | .pyStr s => "\x27" ++ s ++ "\x27"
  | .pyList l => "[" ++ String.intercalate ", " (pyReprList l) ++ "]"
  | .pyDict d => "\x7b" ++ String.intercalate ", " (pyReprPairs d) ++ "\x7d"

def pyReprList : List PyVal → List String
  | [] => []
  | v :: rest => pyRepr v :: pyReprList rest

def pyReprPairs : List (String × PyVal) → List String
  | [] => []
  | (k, v) :: rest => ("\x27" ++ k ++ "\x27: " ++ pyRepr v) :: pyReprPairs rest
end

/-- Python `str(v)`, as interpolated by an f-string: like `repr` except
that a top-level string is rendered without quotes. -/
def pyToStr : PyVal → String
  | .pyStr s => s
  | v => pyRepr v

/-- Python membership test `k in v` for a dictionary (`in` inspects the
keys).  On a non-dictionary the test is never reached by the embedded
code paths below. -/
def pyHasKey (v : PyVal) (k : String) : Bool :=
  match v with
  | .pyDict d => (d.lookup k).isSome
  | _ => false

/-- Dictionary access: `v[k]` where the key is known to be present, and
also `v.get(k)` whose default is `None` (an absent key and a key stored
with value `None` both yield `pyNone`, and both behave identically in the
verdict-membership test of `parse_status`). -/
def pyGet (v : PyVal) (k : String) : PyVal :=
  match v with
  | .pyDict d =>
      match d.lookup k with
      | some x => x
      | none => .pyNone
  | _ => .pyNone

/-- `RETRY_PERIOD = 600` (seconds): the main poll period. -/
def RETRY_PERIOD : Nat := 600

/-- `TIME_GAP = 1` (seconds): the safety gap subtracted when the cursor
advances. -/
def TIME_GAP : Int := 1

/-- `ENDPOINT` of the homework-status API. -/
def ENDPOINT : String := "https://practicum.yandex.ru/api/user_api/homework_statuses/"

/-- `HTTPStatus.OK`. -/
def HTTPStatus_OK : Nat := 200

/-- `HOMEWORK_VERDICTS`: the fixed verdict table, embedded as an
association list in source order. -/
def HOMEWORK_VERDICTS : List (String × String) :=
  [("approved", "Работа проверена: ревьюеру всё понравилось. Ура!"),
   ("reviewing", "Работа взята на проверку ревьюером."),
   ("rejected", "Работа проверена: у ревьюера есть замечания.")]

/-- Whether a Python value is hashable: a membership test `v in d` hashes
the left operand first, and lists and dicts are unhashable. -/
def pyHashable : PyVal → Bool
  | .pyNone => true
  | .pyInt _ => true
  | .pyStr _ => true
  | .pyList _ => false
  | .pyDict _ => false

/-- Python membership `v in HOMEWORK_VERDICTS` restricted to hashable
values: only a string can equal a string key, so the test answers true
exactly for the strings among the verdict keys.  The full, fallible
membership test — including the `TypeError` CPython raises when `v` is
unhashable — is `verdictMember` below. -/
def verdictKnown : PyVal → Bool
  | .pyStr s => (HOMEWORK_VERDICTS.lookup s).isSome
  | _ => false

/-- Python membership `v in HOMEWORK_VERDICTS` for an arbitrary value:
dict membership hashes the left operand, so an unhashable value (a list
or a dict) raises the built-in `TypeError` instead of answering, and a
hashable value answers as `verdictKnown`. -/
def verdictMember (v : PyVal) : Except BotError Bool :=
  match v with
  | .pyList _ => .error (.typeError "unhashable type: \x27list\x27")
  | .pyDict _ => .error (.typeError "unhashable type: \x27dict\x27")
  | hv => .ok (verdictKnown hv)

/-- `HOMEWORK_VERDICTS[v]`, evaluated only when `verdictKnown v` holds. -/
def verdictFor : PyVal → String
  | .pyStr s => (HOMEWORK_VERDICTS.lookup s).getD ""
  | _ => ""

/-- `check_tokens()`: the three module-level credentials are the values
`os.getenv` returned for the three environment variables (`none` models
an unset variable).  A credential is counted missing exactly when its
value `is None`; when any is missing the function logs critically and
raises `MissingTokensError` naming all missing variables, otherwise it
only logs. -/
def check_tokens (practicum_token telegram_token telegram_chat_id : Option String) :
    Except BotError Unit :=
  let missing :=
    ([("PRACTICUM_TOKEN", practicum_token),
      ("TELEGRAM_TOKEN", telegram_token),
      ("TELEGRAM_CHAT_ID", telegram_chat_id)].filter
        (fun p => p.2.isNone)).map Prod.fst
  if missing.isEmpty then
    .ok ()
  else
    .error (.missingTokensError
      ("Отсутствуют необходимые переменные окружения: " ++
        String.intercalate ", " missing))

/-- The possible outcomes of the underlying `bot.send_message` call of the
Telegram client, as distinguished by the three `except` clauses of
`send_message`. -/
inductive SendOutcome where
  | delivered : SendOutcome
  | apiException : String → SendOutcome
  | requestException : String → SendOutcome
  | otherException : String → SendOutcome
  deriving DecidableEq

/-- `send_message(bot, message)`: catches every delivery failure, logs it
and returns `False`; returns `True` on successful delivery.  It never
raises. -/
def send_message (outcome : SendOutcome) : Bool :=
  match outcome with
  | .delivered => true
  | .apiException _ => false
  | .requestException _ => false
  | .otherException _ => false

/-- An HTTP response as seen by `get_api_answer`: its status code, and
the outcome of `response.json()` — `Except.ok` the decoded body,
`Except.error` the message of the JSON decode error raised on a
malformed body. -/
structure HttpResponse where
  status_code : Nat
  json : Except String PyVal

/-- The outcome of `requests.get(**request_params)`: either a raised
`requests.RequestException` (network unreachable, timeout, DNS failure)
or a response object. -/
inductive Transport where
  | netError : String → Transport
  | ok : HttpResponse → Transport

/-- Rendering of the f-string interpolation of `request_params` in the
two `ApiRequestError` messages of `get_api_answer`.  The real dictionary
also interpolates the Authorization header built from the
`PRACTICUM_TOKEN` environment secret; no property below depends on this
text, and the header is rendered without the secret value. -/
def requestParamsStr (timestamp : Int) : String :=
  "\x7b\x27url\x27: \x27" ++ ENDPOINT ++
    "\x27, \x27headers\x27: \x7b\x27Authorization\x27: \x27OAuth\x27\x7d, \x27params\x27: \x7b\x27from_date\x27: " ++
    toString timestamp ++ "\x7d\x7d"

/-- `get_api_answer(timestamp)`: performs one `requests.get`.  A raised
`requests.RequestException` is logged and re-raised as `ApiRequestError`;
a status code other than `HTTPStatus.OK` is logged and raised as
`ApiRequestError`; otherwise the decoded body of `response.json()` is
returned.  The `response.json()` call stands outside the `try` block of
the source, so a JSON decode failure propagates as the decode error
itself, not as `ApiRequestError`. -/
def get_api_answer (timestamp : Int) (t : Transport) : Except BotError PyVal :=
  match t with
  | .netError err =>
      .error (.apiRequestError
        ("Недоступность эндпоинта: " ++ err ++ ". Параметры запроса: " ++
          requestParamsStr timestamp))
  | .ok resp =>
      if resp.status_code ≠ HTTPStatus_OK then
        .error (.apiRequestError
          ("Ошибка при получении данных от API: Статус ответа " ++
            toString resp.status_code ++ ". Параметры запроса: " ++
            requestParamsStr timestamp))
      else
        match resp.json with
        | .ok body => .ok body
        | .error err => .error (.jsonError err)

/-- The two required top-level keys of an API response, in source order. -/
def required_keys : List String := ["homeworks", "current_date"]

/-- The required keys absent from the response, in source order
(`[key for key in required_keys if key not in response]`). -/
def missingKeys (response : PyVal) : List String :=
  required_keys.filter (fun k => !pyHasKey response k)

/-- `check_response(response)`: raises `TypeError` when the response is
not a dict; then raises `KeyError` naming the comma-joined list of all
missing required keys when any is absent; then raises `TypeError` when
the value under the key `homeworks` is not a list; otherwise only logs. -/
def check_response (response : PyVal) : Except BotError Unit :=
  match response with
  | .pyDict _ =>
      if (missingKeys response).isEmpty then
        match pyGet response "homeworks" with
        | .pyList _ => .ok ()
        | hw =>
            .error (.typeError
              ("Тип данных под ключом \"homeworks\" не соответсвует ожидаемому. " ++
                "Полученный тип данных: " ++ pyTypeName hw ++ "."))
      else
        .error (.keyError
          ("Ответ API не содержит необходимые ключи: " ++
            String.intercalate ", " (missingKeys response)))
  | other =>
      .error (.typeError
        ("Структура ответа API не соответсвует ожидаемой. " ++
          "Полученный тип данных: " ++ pyTypeName other ++ "."))

/-- `parse_status(homework)`: raises `HomeworkStatusError` when the key
`homework_name` is absent; then evaluates the membership test
`homework.get("status") not in HOMEWORK_VERDICTS` — which itself raises
the built-in `TypeError` when the status value is unhashable — and raises
`HomeworkStatusError` when the test answers that the value is not a key;
otherwise returns the notification template with the name and the verdict
interpolated.  The fallback arm models Python raising `TypeError` when
the membership test `"homework_name" in homework` is applied to a
non-container record; a string or list record would instead get a
substring or element test there, but no property below depends on that
arm. -/
def parse_status (homework : PyVal) : Except BotError String :=
  match homework with
  | .pyDict _ =>
      if pyHasKey homework "homework_name" then
        match verdictMember (pyGet homework "status") with
        | .error e => .error e
        | .ok true =>
            .ok ("Изменился статус проверки работы \"" ++
              pyToStr (pyGet homework "homework_name") ++ "\". " ++
              verdictFor (pyGet homework "status"))
        | .ok false =>
            .error (.homeworkStatusError
              ("Неизвестный статус домашней работы: " ++
                pyToStr (pyGet homework "status")))
      else
        .error (.homeworkStatusError "Ответ API не содержит ключ \"homework_name\".")
  | other =>
      .error (.typeError
        ("argument of type " ++ pyTypeName other ++ " is not iterable"))

/-- The mutable state of the polling loop of `main`: the cursor
`timestamp` and the `error_reported` flag. -/
structure LoopState where
  timestamp : Int
  error_reported : Bool
  deriving DecidableEq

/-- Initialisation of the loop state in `main`: the cursor starts at the
current time and the flag starts `False`. -/
def initLoopState (now : Int) : LoopState :=
  { timestamp := now, error_reported := false }

/-- Everything one iteration of the loop body consumes from the outside
world: the outcome of the `requests.get` call, the clock value
`int(time.time())` read when the cursor advances, and the outcomes of the
underlying Telegram delivery for the status message and for the error
message (consulted only if the corresponding `send_message` call
happens). -/
structure CycleEnv where
  transport : Transport
  now : Int
  statusSend : SendOutcome
  errorSend : SendOutcome

/-- The externally visible actions of one iteration, in order: the API
request with its `from_date` parameter, the Telegram delivery attempts of
the status message and of the failure notification (with the boolean
`send_message` returned), and the sleeps. -/
inductive Event where
  | fetch : Int → Event
  | sendStatus : String → Bool → Event
  | sendError : String → Bool → Event
  | sleep : Nat → Event
  deriving DecidableEq

/-- The fallible prefix of the loop body — the part of the `try` block
that can raise: fetch (`get_api_answer`), validate (`check_response`),
and interpret (`parse_status` on `homeworks[0]`, run only when the
`homeworks` list is truthy, i.e. non-empty).  Returns `some message` when
a status notification must be delivered and `none` when `homeworks` is
empty.  The wildcard arm (a truthy non-list under `homeworks`) is
unreachable: `check_response` has already guaranteed a list. -/
def cycleAttempt (ts : Int) (env : CycleEnv) : Except BotError (Option String) :=
  match get_api_answer ts env.transport with
  | .error e => .error e
  | .ok response =>
      match check_response response with
      | .error e => .error e
      | .ok _ =>
          match pyGet response "homeworks" with
          | .pyList (hw :: _) =>
              match parse_status hw with
              | .error e => .error e
              | .ok message => .ok (some message)
          | _ => .ok none

/-- Python `str(exc)` of a raised exception, as interpolated into the
operator notification `f"Ошибка в работе программы: {error}"`.  For the
built-in `KeyError`, CPython renders the repr of its argument, wrapping
the message in quotes. -/
def errorText : BotError → String
  | .missingTokensError m => m
  | .apiRequestError m => m
  | .homeworkStatusError m => m
  | .typeError m => m
  | .keyError m => "\x27" ++ m ++ "\x27"
  | .jsonError m => m

/-- One iteration of the `while True:` body of `main`.  On a raised
exception the `except` clause leaves the cursor unchanged, sends the
failure notification only when `error_reported` is still false, and sets
the flag (the source sets it inside the `if not error_reported:` branch,
so after the branch the flag is true in either case).  On a failed status
delivery the body sleeps 60 seconds and `continue`s — skipping both the
cursor advance and the `time.sleep(RETRY_PERIOD)` at the bottom of the
loop.  On full success the cursor becomes `int(time.time()) - TIME_GAP`
and the flag is cleared. -/
def runCycle (s : LoopState) (env : CycleEnv) : LoopState × List Event :=
  match cycleAttempt s.timestamp env with
  | .ok (some message) =>
      if send_message env.statusSend then
        ({ timestamp := env.now - TIME_GAP, error_reported := false },
         [.fetch s.timestamp, .sendStatus message true, .sleep RETRY_PERIOD])
      else
        (s, [.fetch s.timestamp, .sendStatus message false, .sleep 60])
  | .ok none =>
      ({ timestamp := env.now - TIME_GAP, error_reported := false },
       [.fetch s.timestamp, .sleep RETRY_PERIOD])
  | .error e =>
      if s.error_reported then
        ({ timestamp := s.timestamp, error_reported := true },
         [.fetch s.timestamp, .sleep RETRY_PERIOD])
      else
        ({ timestamp := s.timestamp, error_reported := true },
         [.fetch s.timestamp,
          .sendError ("Ошибка в работе программы: " ++ errorText e)
            (send_message env.errorSend),
          .sleep RETRY_PERIOD])

/-- A finite number of consecutive iterations of the loop body, threading
the state and concatenating the traces. -/
def runCycles : LoopState → List CycleEnv → LoopState × List Event
  | s, [] => (s, [])
  | s, env :: rest =>
      ((runCycles (runCycle s env).1 rest).1,
       (runCycle s env).2 ++ (runCycles (runCycle s env).1 rest).2)

/-- The three ways an iteration can end: the `except` branch (`failed`),
the failed-delivery `continue` branch (`deliveryRetry`), and the
cursor-advancing branch (`success`, with or without a delivered status
message). -/
inductive CycleKind where
  | failed : CycleKind
  | deliveryRetry : CycleKind
  | success : CycleKind
  deriving DecidableEq

/-- Which branch an iteration takes.  The branch depends only on the
oracle, never on the loop state: the cursor influences only message
texts, not control flow (`okPart_cycleAttempt` below). -/
def classifyCycle (env : CycleEnv) : CycleKind :=
  match cycleAttempt 0 env with
  | .error _ => .failed
  | .ok none => .success
  | .ok (some _) => if send_message env.statusSend then .success else .deliveryRetry

/-- The status message an iteration delivers, when its fallible prefix
produces one. -/
def cycleMessage (env : CycleEnv) : String :=
  match cycleAttempt 0 env with
  | .ok (some m) => m
  | _ => ""

/-- The text of the operator notification sent from the `except` branch,
as a function of the cursor in force during the iteration. -/
def failMessage (ts : Int) (env : CycleEnv) : String :=
  match cycleAttempt ts env with
  | .error e => "Ошибка в работе программы: " ++ errorText e
  | _ => ""

/-- Number of failure-notification attempts in a trace. -/
def errorSendCount : List Event → Nat
  | [] => 0
  | .sendError _ _ :: rest => errorSendCount rest + 1
  | _ :: rest => errorSendCount rest

/-- Number of delivered (successful) failure notifications in a trace. -/
def errorSendOkCount : List Event → Nat
  | [] => 0
  | .sendError _ true :: rest => errorSendOkCount rest + 1
  | _ :: rest => errorSendOkCount rest

/-- Number of status-notification attempts in a trace. -/
def statusSendCount : List Event → Nat
  | [] => 0
  | .sendStatus _ _ :: rest => statusSendCount rest + 1
  | _ :: rest => statusSendCount rest

/-- Number of outbound delivery attempts of any kind in a trace. -/
def sendAttemptCount : List Event → Nat
  | [] => 0
  | .sendStatus _ _ :: rest => sendAttemptCount rest + 1
  | .sendError _ _ :: rest => sendAttemptCount rest + 1
  | _ :: rest => sendAttemptCount rest

/-- Number of API fetches in a trace. -/
def fetchCount : List Event → Nat
  | [] => 0
  | .fetch _ :: rest => fetchCount rest + 1
  | _ :: rest => fetchCount rest

/-- Whether a trace contains a failed delivery attempt of a status
message. -/
def deliveryFailedIn : List Event → Bool
  | [] => false
  | .sendStatus _ false :: _ => true
  | _ :: rest => deliveryFailedIn rest

/-- Scans forward from a failed delivery of message `m`: true when
another attempt to deliver the same `m` occurs before any further API
fetch. -/
def retrySameBeforeFetch (m : String) : List Event → Bool
  | [] => false
  | .fetch _ :: _ => false
  | .sendStatus m2 _ :: rest =>
      if m2 = m then true else retrySameBeforeFetch m rest
  | _ :: rest => retrySameBeforeFetch m rest

/-- Whether, somewhere in the trace, a failed status delivery is followed
by a renewed attempt to deliver the same message with no API fetch in
between — the behaviour of a delivery-level retry. -/
def retriedBeforeRefetch : List Event → Bool
  | [] => false
  | .sendStatus m false :: rest =>
      retrySameBeforeFetch m rest || retriedBeforeRefetch rest
  | _ :: rest => retriedBeforeRefetch rest

/-- Whether a result is a success. -/
def resultOk {α : Type} : Except BotError α → Bool
  | .ok _ => true
  | .error _ => false

/-- Whether a result is a raised `ApiRequestError`. -/
def isApiRequestErrorResult {α : Type} : Except BotError α → Bool
  | .error (.apiRequestError _) => true
  | _ => false

/-- Whether a result is a raised JSON decode error. -/
def isJsonErrorResult {α : Type} : Except BotError α → Bool
  | .error (.jsonError _) => true
  | _ => false

/-- Whether a result is a raised built-in `KeyError`. -/
def isKeyErrorResult {α : Type} : Except BotError α → Bool
  | .error (.keyError _) => true
  | _ => false

/-- Whether a result is a raised built-in `TypeError`. -/
def isTypeErrorResult {α : Type} : Except BotError α → Bool
  | .error (.typeError _) => true
  | _ => false

/-- Whether a result is a raised `HomeworkStatusError`. -/
def isStatusErrorResult {α : Type} : Except BotError α → Bool
  | .error (.homeworkStatusError _) => true
  | _ => false

/-- Whether a value is a Python dict. -/
def isDictB : PyVal → Bool
  | .pyDict _ => true
  | _ => false

/-- Whether a value is a Python list. -/
def isListB : PyVal → Bool
  | .pyList _ => true
  | _ => false

/-- The success part of an attempt outcome, forgetting which error was
raised. -/
def okPart : Except BotError (Option String) → Option (Option String)
  | .ok v => some v
  | .error _ => none

/-- The cursor value influences only the texts inside raised
`ApiRequestError`s, never which branch the iteration takes nor the status
message produced: the success part of the fallible prefix is the same at
every cursor. -/
theorem okPart_cycleAttempt (ts : Int) (env : CycleEnv) :
    okPart (cycleAttempt ts env) = okPart (cycleAttempt 0 env) := by
  cases htr : env.transport with
  | netError m => simp [cycleAttempt, get_api_answer, htr, okPart]
  | ok resp =>
      by_cases h : resp.status_code = HTTPStatus_OK
      · cases hj : resp.json with
        | ok v => simp [cycleAttempt, get_api_answer, htr, h, hj]
        | error e => simp [cycleAttempt, get_api_answer, htr, h, hj, okPart]
      · simp [cycleAttempt, get_api_answer, htr, h, okPart]

/-- When the fallible prefix raises at the cursor in force, the
classification of the iteration is `failed`. -/
theorem classify_of_error (s : LoopState) (env : CycleEnv) (e : BotError)
    (hc : cycleAttempt s.timestamp env = .error e) :
    classifyCycle env = CycleKind.failed := by
  have h0 := okPart_cycleAttempt s.timestamp env
  rw [hc] at h0
  unfold classifyCycle
  cases hc0 : cycleAttempt 0 env with
  | ok w => rw [hc0] at h0; simp [okPart] at h0
  | error e2 => rfl

/-- When the fallible prefix succeeds at the cursor in force, it succeeds
with the same value at cursor `0`. -/
theorem attempt_ok_at_zero (s : LoopState) (env : CycleEnv) (v : Option String)
    (hc : cycleAttempt s.timestamp env = .ok v) :
    cycleAttempt 0 env = .ok v := by
  have h0 := okPart_cycleAttempt s.timestamp env
  rw [hc] at h0
  cases hc0 : cycleAttempt 0 env with
  | ok w => rw [hc0] at h0; simp [okPart] at h0; rw [h0]
  | error e => rw [hc0] at h0; simp [okPart] at h0

/-- Characterisation of a `failed` iteration: the `except` branch leaves
the cursor unchanged, forces the flag to true, and attempts the single
failure notification exactly when the flag was still false. -/
theorem runCycle_failed (s : LoopState) (env : CycleEnv)
    (h : classifyCycle env = CycleKind.failed) :
    runCycle s env =
      ({ timestamp := s.timestamp, error_reported := true },
       if s.error_reported then
         [Event.fetch s.timestamp, Event.sleep RETRY_PERIOD]
       else
         [Event.fetch s.timestamp,
          Event.sendError (failMessage s.timestamp env) (send_message env.errorSend),
          Event.sleep RETRY_PERIOD]) := by
  cases hc : cycleAttempt s.timestamp env with
  | ok v =>
      exfalso
      have h0 := attempt_ok_at_zero s env v hc
      unfold classifyCycle at h
      rw [h0] at h
      cases v with
      | none => simp at h
      | some m =>
          by_cases hs : send_message env.statusSend
          · simp [hs] at h
          · simp [hs] at h
  | error e =>
      by_cases hr : s.error_reported
      · simp [runCycle, hc, hr]
      · simp [runCycle, hc, hr, failMessage]

/-- Characterisation of a `success` iteration: the cursor becomes the
current clock minus the safety gap, the flag is cleared, and the trace is
either a bare fetch-and-sleep (empty `homeworks`) or additionally the one
delivered status message. -/
theorem runCycle_success (s : LoopState) (env : CycleEnv)
    (h : classifyCycle env = CycleKind.success) :
    runCycle s env =
      ({ timestamp := env.now - TIME_GAP, error_reported := false },
       match cycleAttempt 0 env with
       | .ok (some m) =>
           [Event.fetch s.timestamp, Event.sendStatus m true, Event.sleep RETRY_PERIOD]
       | _ => [Event.fetch s.timestamp, Event.sleep RETRY_PERIOD]) := by
  cases hc : cycleAttempt s.timestamp env with
  | ok v =>
      have h0 := attempt_ok_at_zero s env v hc
      cases v with
      | none => simp [runCycle, hc, h0]
      | some m =>
          by_cases hs : send_message env.statusSend
          · simp [runCycle, hc, h0, hs]
          · exfalso
            unfold classifyCycle at h
            rw [h0] at h
            simp [hs] at h
  | error e =>
      exfalso
      have := classify_of_error s env e hc
      rw [this] at h
      simp at h

/-- Characterisation of a `deliveryRetry` iteration: after the failed
delivery the body sleeps the short backoff and `continue`s, leaving the
whole loop state (cursor and flag) untouched; the iteration performs
exactly one fetch and one delivery attempt, and in particular no second
delivery attempt of the message occurs inside the iteration. -/
theorem runCycle_deliveryRetry (s : LoopState) (env : CycleEnv)
    (h : classifyCycle env = CycleKind.deliveryRetry) :
    runCycle s env =
      (s, [Event.fetch s.timestamp,
           Event.sendStatus (cycleMessage env) false,
           Event.sleep 60]) := by
  cases hc : cycleAttempt s.timestamp env with
  | ok v =>
      have h0 := attempt_ok_at_zero s env v hc
      cases v with
      | none =>
          exfalso
          unfold classifyCycle at h
          rw [h0] at h
          simp at h
      | some m =>
          by_cases hs : send_message env.statusSend
          · exfalso
            unfold classifyCycle at h
            rw [h0] at h
            simp [hs] at h
          · simp [runCycle, hc, hs, cycleMessage, h0]
  | error e =>
      exfalso
      have := classify_of_error s env e hc
      rw [this] at h
      simp at h

/-- Failure-notification attempts add up over concatenated traces. -/
theorem errorSendCount_append (a b : List Event) :
    errorSendCount (a ++ b) = errorSendCount a + errorSendCount b := by
  induction a with
  | nil => simp [errorSendCount]
  | cons e rest ih =>
      cases e <;> simp [errorSendCount, ih] <;> omega

/-- Delivered failure notifications add up over concatenated traces. -/
theorem errorSendOkCount_append (a b : List Event) :
    errorSendOkCount (a ++ b) = errorSendOkCount a + errorSendOkCount b := by
  induction a with
  | nil => simp [errorSendOkCount]
  | cons e rest ih =>
      cases e with
      | sendError m ok =>
          cases ok <;> simp [errorSendOkCount, ih] <;> omega
      | fetch ts => simp [errorSendOkCount, ih]
      | sendStatus m ok => simp [errorSendOkCount, ih]
      | sleep n => simp [errorSendOkCount, ih]

/-- Status-delivery attempts add up over concatenated traces. -/
theorem statusSendCount_append (a b : List Event) :
    statusSendCount (a ++ b) = statusSendCount a + statusSendCount b := by
  induction a with
  | nil => simp [statusSendCount]
  | cons e rest ih =>
      cases e <;> simp [statusSendCount, ih] <;> omega

/-- Delivery attempts of any kind add up over concatenated traces. -/
theorem sendAttemptCount_append (a b : List Event) :
    sendAttemptCount (a ++ b) = sendAttemptCount a + sendAttemptCount b := by
  induction a with
  | nil => simp [sendAttemptCount]
  | cons e rest ih =>
      cases e <;> simp [sendAttemptCount, ih] <;> omega

/-- Fetches add up over concatenated traces. -/
theorem fetchCount_append (a b : List Event) :
    fetchCount (a ++ b) = fetchCount a + fetchCount b := by
  induction a with
  | nil => simp [fetchCount]
  | cons e rest ih =>
      cases e <;> simp [fetchCount, ih] <;> omega

/-- Over a streak of `failed` iterations entered with the flag already
raised, the loop keeps the cursor, keeps the flag, and attempts no
failure notification at all. -/
theorem streak_suppressed (envs : List CycleEnv)
    (hall : ∀ e ∈ envs, classifyCycle e = CycleKind.failed) :
    ∀ s : LoopState, s.error_reported = true →
      (runCycles s envs).1 = { timestamp := s.timestamp, error_reported := true } ∧
      errorSendCount (runCycles s envs).2 = 0 := by
  induction envs with
  | nil =>
      intro s hs
      constructor
      · cases s with
        | mk ts er =>
            simp only [runCycles, LoopState.mk.injEq]
            exact ⟨trivial, hs⟩
      · rfl
  | cons env rest ih =>
      intro s hs
      have hfirst : classifyCycle env = CycleKind.failed := hall env (by simp)
      have hrest : ∀ e ∈ rest, classifyCycle e = CycleKind.failed := by
        intro e he
        exact hall e (by simp [he])
      have hrc := runCycle_failed s env hfirst
      have hstate : (runCycle s env).1 = { timestamp := s.timestamp, error_reported := true } := by
        rw [hrc]
      have htrace : (runCycle s env).2 = [Event.fetch s.timestamp, Event.sleep RETRY_PERIOD] := by
        rw [hrc]
        simp [hs]
      have hih := ih hrest (runCycle s env).1 (by rw [hstate])
      constructor
      · show (runCycles (runCycle s env).1 rest).1 = _
        rw [hih.1, hstate]
      · show errorSendCount ((runCycle s env).2 ++ (runCycles (runCycle s env).1 rest).2) = 0
        rw [errorSendCount_append, hih.2, htrace]
        simp [errorSendCount]

/-- Delivered failure notifications never exceed attempted ones. -/
theorem errorSendOkCount_le (tr : List Event) :
    errorSendOkCount tr ≤ errorSendCount tr := by
  induction tr with
  | nil => simp [errorSendOkCount, errorSendCount]
  | cons e rest ih =>
      cases e with
      | sendError m ok =>
          cases ok with
          | true => simp [errorSendOkCount, errorSendCount]; omega
          | false => simp [errorSendOkCount, errorSendCount]; omega
      | fetch ts => simpa [errorSendOkCount, errorSendCount] using ih
      | sendStatus m ok => simpa [errorSendOkCount, errorSendCount] using ih
      | sleep n => simpa [errorSendOkCount, errorSendCount] using ih

/-- A fully successful iteration attempts no failure notification. -/
theorem errorSendCount_success_trace (s : LoopState) (env : CycleEnv)
    (h : classifyCycle env = CycleKind.success) :
    errorSendCount (runCycle s env).2 = 0 := by
  rw [runCycle_success s env h]
  cases hc : cycleAttempt 0 env with
  | ok v => cases v <;> simp [errorSendCount]
  | error e => simp [errorSendCount]

/-- Whether the transport call itself raised. -/
def transportNetError : Transport → Bool
  | .netError _ => true
  | .ok _ => false

/-- Whether a response arrived bearing a status code other than the
success code. -/
def transportBadStatus : Transport → Bool
  | .netError _ => false
  | .ok resp => resp.status_code != HTTPStatus_OK

/-- Whether a response arrived whose body decoded successfully. -/
def transportJsonOk : Transport → Bool
  | .netError _ => false
  | .ok resp =>
      match resp.json with
      | .ok _ => true
      | .error _ => false

/-- Sample decoded response carrying an empty homeworks list. -/
def sampleEmptyResp : PyVal :=
  .pyDict [("homeworks", .pyList []), ("current_date", .pyInt 123)]

/-- Sample decoded response carrying one reviewed homework. -/
def sampleFullResp : PyVal :=
  .pyDict
    [("homeworks",
      .pyList [.pyDict [("homework_name", .pyStr "proj1"), ("status", .pyStr "approved")]]),
     ("current_date", .pyInt 123)]

/-- Loop state sample: cursor 100, flag clear. -/
def sampleState : LoopState := { timestamp := 100, error_reported := false }

/-- Oracle of a fully successful iteration that finds no new statuses. -/
def sampleOkEnv : CycleEnv :=
  { transport := .ok { status_code := HTTPStatus_OK, json := .ok sampleEmptyResp },
    now := 500, statusSend := .delivered, errorSend := .delivered }

/-- Oracle of an iteration whose fetch raises a network error. -/
def sampleFailEnv : CycleEnv :=
  { transport := .netError "connection refused", now := 500,
    statusSend := .delivered, errorSend := .delivered }

/-- Oracle of a failing iteration whose operator notification also fails
to deliver. -/
def sampleFailEnvNoSend : CycleEnv :=
  { transport := .netError "connection refused", now := 500,
    statusSend := .delivered, errorSend := .apiException "chat not found" }

/-- Oracle of an iteration that interprets a new status but whose
delivery of it fails. -/
def sampleDelivFailEnv : CycleEnv :=
  { transport := .ok { status_code := HTTPStatus_OK, json := .ok sampleFullResp },
    now := 500, statusSend := .apiException "too many requests", errorSend := .delivered }

/-- Claim C9: `check_tokens` counts a credential as missing only when its
environment variable is unset (`None` from `os.getenv`); a credential set
to the empty string counts as present, so whenever all three variables
are set — even to empty, unusable strings — `check_tokens` succeeds and
the loop is allowed to start. -/
theorem check_tokens_empty_string_passes (p t c : Option String) :
    resultOk (check_tokens p t c) = (p.isSome && t.isSome && c.isSome) ∧
    check_tokens (some "") (some "") (some "") = .ok () := by
  constructor
  · cases p <;> cases t <;> cases c <;> rfl
  · rfl

/-- Counterexample to claim C4 as stated: on the record with the name
present and a list — a value that is certainly not a key of the verdict
table — under `status`, the membership test of the source raises the
built-in unhashable-type `TypeError`, not `HomeworkStatusError`. -/
theorem parse_status_unhashable_counterexample :
    pyHasKey (.pyDict [("homework_name", .pyStr "a"), ("status", .pyList [])])
      "homework_name" = true ∧
    verdictKnown (pyGet (.pyDict [("homework_name", .pyStr "a"), ("status", .pyList [])])
      "status") = false ∧
    isStatusErrorResult
      (parse_status (.pyDict [("homework_name", .pyStr "a"), ("status", .pyList [])]))
      = false ∧
    isTypeErrorResult
      (parse_status (.pyDict [("homework_name", .pyStr "a"), ("status", .pyList [])]))
      = true :=
  ⟨rfl, rfl, rfl, rfl⟩

/-- Claim C4 (amended): on a homework record, `parse_status` raises
`HomeworkStatusError` exactly when the name field is missing, or when the
status value is hashable but not a key of the verdict table (an absent
status behaves as `None`: hashable and unknown); when the name is present
and the status value is unhashable (a list or a dict), the membership
test instead raises the built-in `TypeError`.  With a present name and a
recognised status it returns exactly the notification template with the
record name and the table verdict substituted — in particular the record
for proj1/approved yields the advertised sentence. -/
theorem parse_status_contract (d : List (String × PyVal)) :
    isStatusErrorResult (parse_status (.pyDict d))
        = (!pyHasKey (.pyDict d) "homework_name" ||
           (pyHashable (pyGet (.pyDict d) "status") &&
            !verdictKnown (pyGet (.pyDict d) "status"))) ∧
    isTypeErrorResult (parse_status (.pyDict d))
        = (pyHasKey (.pyDict d) "homework_name" &&
           !pyHashable (pyGet (.pyDict d) "status")) ∧
    resultOk (parse_status (.pyDict d))
        = (pyHasKey (.pyDict d) "homework_name" &&
           verdictKnown (pyGet (.pyDict d) "status")) ∧
    (∀ st verdict : String,
       pyGet (.pyDict d) "status" = .pyStr st →
       HOMEWORK_VERDICTS.lookup st = some verdict →
       pyHasKey (.pyDict d) "homework_name" = true →
       parse_status (.pyDict d) =
         .ok ("Изменился статус проверки работы \"" ++
           pyToStr (pyGet (.pyDict d) "homework_name") ++ "\". " ++ verdict)) ∧
    parse_status (.pyDict [("homework_name", .pyStr "proj1"), ("status", .pyStr "approved")])
      = .ok "Изменился статус проверки работы \"proj1\". Работа проверена: ревьюеру всё понравилось. Ура!" := by
  have h3 :
      isStatusErrorResult (parse_status (.pyDict d))
          = (!pyHasKey (.pyDict d) "homework_name" ||
             (pyHashable (pyGet (.pyDict d) "status") &&
              !verdictKnown (pyGet (.pyDict d) "status"))) ∧
      isTypeErrorResult (parse_status (.pyDict d))
          = (pyHasKey (.pyDict d) "homework_name" &&
             !pyHashable (pyGet (.pyDict d) "status")) ∧
      resultOk (parse_status (.pyDict d))
          = (pyHasKey (.pyDict d) "homework_name" &&
             verdictKnown (pyGet (.pyDict d) "status")) := by
    cases hn : pyHasKey (.pyDict d) "homework_name" with
    | false =>
        refine ⟨?_, ?_, ?_⟩ <;>
          simp [parse_status, hn, isStatusErrorResult, isTypeErrorResult, resultOk]
    | true =>
        cases hv : pyGet (.pyDict d) "status" with
        | pyStr s =>
            cases hk : HOMEWORK_VERDICTS.lookup s with
            | none =>
                refine ⟨?_, ?_, ?_⟩ <;>
                  simp [parse_status, verdictMember, verdictKnown, pyHashable, hn, hv, hk,
                    isStatusErrorResult, isTypeErrorResult, resultOk]
            | some w =>
                refine ⟨?_, ?_, ?_⟩ <;>
                  simp [parse_status, verdictMember, verdictKnown, pyHashable, hn, hv, hk,
                    isStatusErrorResult, isTypeErrorResult, resultOk]
        | pyNone =>
            refine ⟨?_, ?_, ?_⟩ <;>
              simp [parse_status, verdictMember, verdictKnown, pyHashable, hn, hv,
                isStatusErrorResult, isTypeErrorResult, resultOk]
        | pyInt n =>
            refine ⟨?_, ?_, ?_⟩ <;>
              simp [parse_status, verdictMember, verdictKnown, pyHashable, hn, hv,
                isStatusErrorResult, isTypeErrorResult, resultOk]
        | pyList l =>
            refine ⟨?_, ?_, ?_⟩ <;>
              simp [parse_status, verdictMember, verdictKnown, pyHashable, hn, hv,
                isStatusErrorResult, isTypeErrorResult, resultOk]
        | pyDict d2 =>
            refine ⟨?_, ?_, ?_⟩ <;>
              simp [parse_status, verdictMember, verdictKnown, pyHashable, hn, hv,
                isStatusErrorResult, isTypeErrorResult, resultOk]
  refine ⟨h3.1, h3.2.1, h3.2.2, ?_, rfl⟩
  intro st verdict hst hv hn
  simp [parse_status, verdictMember, hn, hst, verdictKnown, verdictFor, hv]

/-- Witness for the amended C4 contract at the concrete proj1/approved
record. -/
theorem parse_status_contract_witness :
    parse_status (.pyDict [("homework_name", .pyStr "proj1"), ("status", .pyStr "approved")])
      = .ok ("Изменился статус проверки работы \"" ++
          pyToStr (pyGet
            (.pyDict [("homework_name", .pyStr "proj1"), ("status", .pyStr "approved")])
            "homework_name") ++
          "\". " ++ "Работа проверена: ревьюеру всё понравилось. Ура!") :=
  (parse_status_contract [("homework_name", .pyStr "proj1"), ("status", .pyStr "approved")]).2.2.2.1
    "approved" "Работа проверена: ревьюеру всё понравилось. Ура!" rfl rfl rfl

/-- Claim C5: on a mapping response lacking `homeworks`, `current_date`
or both, `check_response` raises the key error whose message carries the
comma-joined list of all missing required keys, not just the first. -/
theorem check_response_missing_keys (d : List (String × PyVal))
    (h : missingKeys (.pyDict d) ≠ []) :
    check_response (.pyDict d) =
      .error (.keyError
        ("Ответ API не содержит необходимые ключи: " ++
          String.intercalate ", " (missingKeys (.pyDict d)))) := by
  have hne : (missingKeys (.pyDict d)).isEmpty = false := by
    cases hm : missingKeys (.pyDict d) with
    | nil => exact absurd hm h
    | cons a l => rfl
  simp [check_response, hne]

/-- Witness for C5 at the empty mapping, where both required keys are
missing and both are named. -/
theorem check_response_missing_keys_witness :
    check_response (.pyDict []) =
      .error (.keyError
        ("Ответ API не содержит необходимые ключи: " ++
          String.intercalate ", " (missingKeys (.pyDict [])))) :=
  check_response_missing_keys [] (by decide)

/-- Counterexample to claim C6 as stated: on the mapping whose
`homeworks` value is present but not a sequence while `current_date` is
absent, `check_response` raises the key error, not the type error — the
missing-key check runs before the `homeworks` type check. -/
theorem check_response_type_counterexample :
    isListB (pyGet (.pyDict [("homeworks", .pyInt 5)]) "homeworks") = false ∧
    isKeyErrorResult (check_response (.pyDict [("homeworks", .pyInt 5)])) = true ∧
    isTypeErrorResult (check_response (.pyDict [("homeworks", .pyInt 5)])) = false :=
  ⟨rfl, rfl, rfl⟩

/-- Claim C6 (amended): a non-mapping top-level response always makes
`check_response` raise the type error and never the key error; a mapping
that contains both required keys but a non-sequence value under
`homeworks` also raises the type error.  (When a required key is missing,
the missing-key error takes precedence even if `homeworks` is present and
ill-typed.) -/
theorem check_response_type_mismatch (v : PyVal) (d : List (String × PyVal)) :
    (isDictB v = false →
       isTypeErrorResult (check_response v) = true ∧
       isKeyErrorResult (check_response v) = false) ∧
    (pyHasKey (.pyDict d) "homeworks" = true →
     pyHasKey (.pyDict d) "current_date" = true →
     isListB (pyGet (.pyDict d) "homeworks") = false →
     isTypeErrorResult (check_response (.pyDict d)) = true) := by
  constructor
  · intro hv
    cases v with
    | pyDict d2 => exact absurd hv (by simp [isDictB])
    | pyNone => exact ⟨rfl, rfl⟩
    | pyInt n => exact ⟨rfl, rfl⟩
    | pyStr s => exact ⟨rfl, rfl⟩
    | pyList l => exact ⟨rfl, rfl⟩
  · intro h1 h2 h3
    have hempty : (missingKeys (.pyDict d)).isEmpty = true := by
      simp [missingKeys, required_keys, List.filter, h1, h2]
    simp only [check_response, hempty, if_true]
    cases hg : pyGet (.pyDict d) "homeworks" with
    | pyList l => rw [hg] at h3; exact absurd h3 (by simp [isListB])
    | pyNone => rfl
    | pyInt n => rfl
    | pyStr s2 => rfl
    | pyDict d2 => rfl

/-- Witness for the amended C6 at a non-mapping response and at a mapping
with both keys present and an integer under `homeworks`. -/
theorem check_response_type_mismatch_witness :
    (isTypeErrorResult (check_response (.pyList [])) = true ∧
     isKeyErrorResult (check_response (.pyList [])) = false) ∧
    isTypeErrorResult
      (check_response (.pyDict [("homeworks", .pyInt 5), ("current_date", .pyInt 1)])) = true :=
  ⟨(check_response_type_mismatch (.pyList []) []).1 rfl,
   (check_response_type_mismatch (.pyList [])
      [("homeworks", .pyInt 5), ("current_date", .pyInt 1)]).2 rfl rfl rfl⟩

/-- Transport sample: HTTP 200 whose body fails to decode. -/
def sampleBadJsonTransport : Transport :=
  .ok { status_code := HTTPStatus_OK, json := .error "Expecting value: line 1 column 1 (char 0)" }

/-- Counterexample to claim C7 as stated: with status 200 and a malformed
body, `get_api_answer` fails — but with the JSON decode error escaping
`response.json()`, which stands outside the `try` block, not with
`ApiRequestError`. -/
theorem get_api_answer_json_counterexample :
    resultOk (get_api_answer 0 sampleBadJsonTransport) = false ∧
    isJsonErrorResult (get_api_answer 0 sampleBadJsonTransport) = true ∧
    isApiRequestErrorResult (get_api_answer 0 sampleBadJsonTransport) = false :=
  ⟨rfl, rfl, rfl⟩

/-- Claim C7 (amended): `get_api_answer` raises `ApiRequestError` exactly
when the transport itself fails or the response status code differs from
the success code; with a success status and a well-formed body it returns
the decoded body; a malformed body makes it fail with the JSON decode
error rather than with `ApiRequestError`.  The function consults the
transport exactly once, so no retry happens inside the component. -/
theorem get_api_answer_contract (ts : Int) (t : Transport) :
    isApiRequestErrorResult (get_api_answer ts t)
        = (transportNetError t || transportBadStatus t) ∧
    resultOk (get_api_answer ts t)
        = (!transportNetError t && !transportBadStatus t && transportJsonOk t) ∧
    (∀ body : PyVal,
       get_api_answer ts (.ok { status_code := HTTPStatus_OK, json := .ok body })
         = .ok body) ∧
    (∀ err : String,
       isJsonErrorResult
         (get_api_answer ts (.ok { status_code := HTTPStatus_OK, json := .error err }))
         = true) := by
  refine ⟨?_, ?_, fun body => rfl, fun err => rfl⟩
  · cases t with
    | netError m => rfl
    | ok resp =>
        by_cases h : resp.status_code = HTTPStatus_OK
        · cases hj : resp.json with
          | ok v =>
              simp [get_api_answer, transportNetError, transportBadStatus, h, hj,
                isApiRequestErrorResult]
          | error e =>
              simp [get_api_answer, transportNetError, transportBadStatus, h, hj,
                isApiRequestErrorResult]
        · simp [get_api_answer, transportNetError, transportBadStatus, h,
            isApiRequestErrorResult]
  · cases t with
    | netError m => rfl
    | ok resp =>
        by_cases h : resp.status_code = HTTPStatus_OK
        · cases hj : resp.json with
          | ok v =>
              simp [get_api_answer, transportNetError, transportBadStatus, transportJsonOk,
                h, hj, resultOk]
          | error e =>
              simp [get_api_answer, transportNetError, transportBadStatus, transportJsonOk,
                h, hj, resultOk]
        · simp [get_api_answer, transportNetError, transportBadStatus, transportJsonOk,
            h, resultOk]

/-- Claim C1: in every iteration whose fetching, validating or
interpreting step raises, the cursor after the iteration equals the
cursor before it; and the only iterations that can change the cursor are
the fully successful ones (the failed-delivery branch keeps it too). -/
theorem cursor_non_regression (s : LoopState) (env : CycleEnv) :
    (classifyCycle env = CycleKind.failed →
       (runCycle s env).1.timestamp = s.timestamp) ∧
    ((runCycle s env).1.timestamp ≠ s.timestamp →
       classifyCycle env = CycleKind.success) := by
  constructor
  · intro h
    rw [runCycle_failed s env h]
  · intro h
    cases hcl : classifyCycle env with
    | failed => exact absurd (by rw [runCycle_failed s env hcl]) h
    | deliveryRetry => exact absurd (by rw [runCycle_deliveryRetry s env hcl]) h
    | success => rfl

/-- Witness for C1: a network-failure iteration keeps the cursor at 100,
and the sample iteration that does move the cursor is classified fully
successful. -/
theorem cursor_non_regression_witness :
    (runCycle sampleState sampleFailEnv).1.timestamp = sampleState.timestamp ∧
    classifyCycle sampleOkEnv = CycleKind.success :=
  ⟨(cursor_non_regression sampleState sampleFailEnv).1 rfl,
   (cursor_non_regression sampleState sampleOkEnv).2 (by decide)⟩

/-- Counterexample to claim C2 as stated: from cursor 100 with two
identical oracles whose status delivery fails, the iteration contains
exactly one delivery attempt, and the next delivery attempt of the same
message is preceded by a fresh API fetch — the `continue` of the source
restarts the whole cycle, fetch included, rather than retrying delivery
of the same message within the same cycle. -/
theorem delivery_retry_counterexample :
    deliveryFailedIn (runCycles sampleState [sampleDelivFailEnv, sampleDelivFailEnv]).2 = true ∧
    statusSendCount (runCycle sampleState sampleDelivFailEnv).2 = 1 ∧
    retriedBeforeRefetch
      (runCycles sampleState [sampleDelivFailEnv, sampleDelivFailEnv]).2 = false ∧
    fetchCount (runCycles sampleState [sampleDelivFailEnv, sampleDelivFailEnv]).2 = 2 :=
  ⟨rfl, rfl, rfl, rfl⟩

/-- Claim C2 (amended): when delivery of the status notification fails,
the loop backs off the short fixed interval of 60 seconds — distinct from
the 600-second poll period — and leaves the cursor and the flag exactly
as they were, without sending anything else in that iteration; but the
`continue` then starts a new cycle, so the retry is a renewed fetch at
the unchanged cursor, from which the message is recomputed, not a
redelivery of the stored message within the same cycle. -/
theorem delivery_failure_backoff (s : LoopState) (env env2 : CycleEnv)
    (h : classifyCycle env = CycleKind.deliveryRetry) :
    (runCycle s env).1 = s ∧
    (runCycle s env).2 =
      [Event.fetch s.timestamp, Event.sendStatus (cycleMessage env) false, Event.sleep 60] ∧
    (60 : Nat) ≠ RETRY_PERIOD ∧
    (runCycles s [env, env2]).2 =
      [Event.fetch s.timestamp, Event.sendStatus (cycleMessage env) false, Event.sleep 60]
        ++ (runCycle s env2).2 := by
  have hr := runCycle_deliveryRetry s env h
  refine ⟨by rw [hr], by rw [hr], by decide, ?_⟩
  show (runCycle s env).2 ++ (runCycles (runCycle s env).1 [env2]).2 = _
  rw [hr]
  simp [runCycles]

/-- Witness for the amended C2 at the sample failing-delivery oracle. -/
theorem delivery_failure_backoff_witness :
    (runCycle sampleState sampleDelivFailEnv).1 = sampleState ∧
    (runCycle sampleState sampleDelivFailEnv).2 =
      [Event.fetch sampleState.timestamp,
       Event.sendStatus (cycleMessage sampleDelivFailEnv) false, Event.sleep 60] ∧
    (60 : Nat) ≠ RETRY_PERIOD ∧
    (runCycles sampleState [sampleDelivFailEnv, sampleDelivFailEnv]).2 =
      [Event.fetch sampleState.timestamp,
       Event.sendStatus (cycleMessage sampleDelivFailEnv) false, Event.sleep 60]
        ++ (runCycle sampleState sampleDelivFailEnv).2 :=
  delivery_failure_backoff sampleState sampleDelivFailEnv sampleDelivFailEnv rfl

/-- Claim C3: with the flag clear, two consecutive failing cycles of one
unresolved failure streak produce exactly one outbound failure
notification, not two; the next fully successful cycle resets the flag,
so the first failure of a new streak is notified again — two
notifications in total across failed, failed, success, failed. -/
theorem error_dedup (s : LoopState) (e1 e2 e3 e4 : CycleEnv)
    (h0 : s.error_reported = false)
    (h1 : classifyCycle e1 = CycleKind.failed)
    (h2 : classifyCycle e2 = CycleKind.failed)
    (h3 : classifyCycle e3 = CycleKind.success)
    (h4 : classifyCycle e4 = CycleKind.failed) :
    errorSendCount (runCycles s [e1, e2]).2 = 1 ∧
    (runCycles s [e1, e2, e3]).1.error_reported = false ∧
    errorSendCount (runCycles s [e1, e2, e3, e4]).2 = 2 := by
  have hr1 := runCycle_failed s e1 h1
  have hr2 := runCycle_failed ({ timestamp := s.timestamp, error_reported := true }) e2 h2
  have hc3 : errorSendCount
      (runCycle ({ timestamp := s.timestamp, error_reported := true }) e3).2 = 0 :=
    errorSendCount_success_trace _ e3 h3
  have hs3 : (runCycle ({ timestamp := s.timestamp, error_reported := true }) e3).1 =
      { timestamp := e3.now - TIME_GAP, error_reported := false } := by
    rw [runCycle_success _ e3 h3]
  have hr4 := runCycle_failed ({ timestamp := e3.now - TIME_GAP, error_reported := false }) e4 h4
  refine ⟨?_, ?_, ?_⟩
  · simp [runCycles, hr1, hr2, h0, errorSendCount_append, errorSendCount]
  · simp [runCycles, hr1, hr2, hs3]
  · simp [runCycles, hr1, hr2, hc3, hs3, hr4, h0, errorSendCount_append, errorSendCount]

/-- Witness for C3: network failures around one quiet successful cycle. -/
theorem error_dedup_witness :
    errorSendCount (runCycles (initLoopState 100) [sampleFailEnv, sampleFailEnv]).2 = 1 ∧
    (runCycles (initLoopState 100) [sampleFailEnv, sampleFailEnv, sampleOkEnv]).1.error_reported
      = false ∧
    errorSendCount
      (runCycles (initLoopState 100)
        [sampleFailEnv, sampleFailEnv, sampleOkEnv, sampleFailEnv]).2 = 2 :=
  error_dedup (initLoopState 100) sampleFailEnv sampleFailEnv sampleOkEnv sampleFailEnv
    rfl rfl rfl rfl rfl

/-- Claim C8: an iteration whose validated response carries an empty
homeworks list sends nothing, still completes fully successfully —
advancing the cursor to the current clock minus the fixed safety gap and
clearing the flag — and a second such iteration again sends nothing and
advances the cursor. -/
theorem empty_homeworks_cycle (s : LoopState) (e1 e2 : CycleEnv) (v1 v2 : PyVal)
    (h1 : e1.transport = Transport.ok { status_code := HTTPStatus_OK, json := .ok v1 })
    (h2 : check_response v1 = .ok ())
    (h3 : pyGet v1 "homeworks" = .pyList [])
    (h4 : e2.transport = Transport.ok { status_code := HTTPStatus_OK, json := .ok v2 })
    (h5 : check_response v2 = .ok ())
    (h6 : pyGet v2 "homeworks" = .pyList []) :
    runCycle s e1 =
      ({ timestamp := e1.now - TIME_GAP, error_reported := false },
       [Event.fetch s.timestamp, Event.sleep RETRY_PERIOD]) ∧
    (runCycles s [e1, e2]).1 = { timestamp := e2.now - TIME_GAP, error_reported := false } ∧
    sendAttemptCount (runCycles s [e1, e2]).2 = 0 := by
  have ha1 : ∀ ts : Int, cycleAttempt ts e1 = .ok none := by
    intro ts
    simp [cycleAttempt, get_api_answer, h1, h2, h3]
  have ha2 : ∀ ts : Int, cycleAttempt ts e2 = .ok none := by
    intro ts
    simp [cycleAttempt, get_api_answer, h4, h5, h6]
  have hr1 : runCycle s e1 =
      ({ timestamp := e1.now - TIME_GAP, error_reported := false },
       [Event.fetch s.timestamp, Event.sleep RETRY_PERIOD]) := by
    simp [runCycle, ha1 s.timestamp]
  have hr2 : runCycle ({ timestamp := e1.now - TIME_GAP, error_reported := false }) e2 =
      ({ timestamp := e2.now - TIME_GAP, error_reported := false },
       [Event.fetch (e1.now - TIME_GAP), Event.sleep RETRY_PERIOD]) := by
    simp [runCycle, ha2 (e1.now - TIME_GAP)]
  refine ⟨hr1, ?_, ?_⟩
  · simp [runCycles, hr1, hr2]
  · simp [runCycles, hr1, hr2, sendAttemptCount_append, sendAttemptCount]

/-- Witness for C8: the quiet successful oracle run twice from cursor
100. -/
theorem empty_homeworks_cycle_witness :
    runCycle sampleState sampleOkEnv =
      ({ timestamp := sampleOkEnv.now - TIME_GAP, error_reported := false },
       [Event.fetch sampleState.timestamp, Event.sleep RETRY_PERIOD]) ∧
    (runCycles sampleState [sampleOkEnv, sampleOkEnv]).1 =
      { timestamp := sampleOkEnv.now - TIME_GAP, error_reported := false } ∧
    sendAttemptCount (runCycles sampleState [sampleOkEnv, sampleOkEnv]).2 = 0 :=
  empty_homeworks_cycle sampleState sampleOkEnv sampleOkEnv sampleEmptyResp sampleEmptyResp
    rfl rfl rfl rfl rfl rfl

/-- Claim C10: in the failure branch the flag is raised after the
notification attempt regardless of whether that `send_message` call
succeeded; hence over an entire failure streak exactly one
failure-notification send is attempted, and when that single attempt
itself fails to deliver, the operator receives zero failure notifications
for the whole streak and no further attempt occurs within it. -/
theorem error_flag_set_regardless (s : LoopState) (env : CycleEnv) (envs : List CycleEnv)
    (h0 : s.error_reported = false)
    (h1 : classifyCycle env = CycleKind.failed)
    (hall : ∀ e ∈ envs, classifyCycle e = CycleKind.failed)
    (hsend : send_message env.errorSend = false) :
    (runCycle s env).1.error_reported = true ∧
    errorSendCount (runCycles s (env :: envs)).2 = 1 ∧
    errorSendOkCount (runCycles s (env :: envs)).2 = 0 := by
  have hr := runCycle_failed s env h1
  have hstreak := streak_suppressed envs hall ({ timestamp := s.timestamp, error_reported := true }) rfl
  have hle := errorSendOkCount_le
    (runCycles ({ timestamp := s.timestamp, error_reported := true } : LoopState) envs).2
  rw [hstreak.2] at hle
  refine ⟨by rw [hr], ?_, ?_⟩
  · simp [runCycles, hr, h0, errorSendCount_append, errorSendCount, hstreak.2]
  · have hok : errorSendOkCount
        (runCycles ({ timestamp := s.timestamp, error_reported := true } : LoopState) envs).2 = 0 := by
      omega
    simp [runCycles, hr, h0, hsend, errorSendOkCount_append, errorSendOkCount, hok]

/-- Witness for C10: two network-failure cycles whose operator
notification cannot be delivered. -/
theorem error_flag_set_regardless_witness :
    (runCycle (initLoopState 100) sampleFailEnvNoSend).1.error_reported = true ∧
    errorSendCount
      (runCycles (initLoopState 100) [sampleFailEnvNoSend, sampleFailEnvNoSend]).2 = 1 ∧
    errorSendOkCount
      (runCycles (initLoopState 100) [sampleFailEnvNoSend, sampleFailEnvNoSend]).2 = 0 :=
  error_flag_set_regardless (initLoopState 100) sampleFailEnvNoSend [sampleFailEnvNoSend]
    rfl rfl (by intro e he; rw [List.mem_singleton.mp he]; rfl) rfl
